/-
Verification of the TD Realty seller-intelligence scoring core.

Shallow embedding of:
  scripts/scoring/calculate_scores.py  (ScoringEngine)
  scripts/utils/address_utils.py       (normalization and derived-field helpers)

Numeric conventions: Python floats are modelled as rationals (ℚ); Python's
`round` (banker's rounding, half to even) is modelled by `pyRound`;
`round(x, 2)` by `round2`.  Python `None` becomes `Option`.  Dates are day
ordinals (ℤ) where only differences matter; calendar dates produced by
`parse_date` are an explicit structure.
-/
import Mathlib

namespace TDRealty

/-- Python `round`: round half to even (banker's rounding), on rationals. -/
def pyRound (q : ℚ) : ℤ :=
  let f : ℤ := ⌊q⌋
  let r : ℚ := q - f
  if r < 1/2 then f
  else if 1/2 < r then f + 1
  else if Even f then f else f + 1

/-- Python `round(x, 2)`. -/
def round2 (q : ℚ) : ℚ := (pyRound (q * 100) : ℚ) / 100

/-- `min(100, max(0, n))` as used to clamp both scores. -/
def clamp100 (n : ℤ) : ℤ := min 100 (max 0 n)

/-- The ASCII lowercase→uppercase letter table. -/
def LOWER_UPPER : List (Char × Char) :=
  [('a','A'), ('b','B'), ('c','C'), ('d','D'), ('e','E'), ('f','F'), ('g','G'),
   ('h','H'), ('i','I'), ('j','J'), ('k','K'), ('l','L'), ('m','M'), ('n','N'),
   ('o','O'), ('p','P'), ('q','Q'), ('r','R'), ('s','S'), ('t','T'), ('u','U'),
   ('v','V'), ('w','W'), ('x','X'), ('y','Y'), ('z','Z')]

/-- The ASCII uppercase→lowercase letter table. -/
def UPPER_LOWER : List (Char × Char) := LOWER_UPPER.map (fun e => (e.2, e.1))

/-- ASCII uppercase on one character (Python `str.upper`, ASCII fragment). -/
def pyUpperChar (c : Char) : Char := (LOWER_UPPER.lookup c).getD c

/-- ASCII lowercase on one character (Python `str.lower`, ASCII fragment). -/
def pyLowerChar (c : Char) : Char := (UPPER_LOWER.lookup c).getD c

/-- Scoring configuration (`ScoringEngine.DEFAULT_CONFIG` keys). -/
structure ScoringConfig where
  market_value_multiplier : ℚ
  hot_threshold : ℚ
  warm_threshold : ℚ
  min_years_owned : ℚ
  min_equity : ℚ
  target_price_min : ℚ
  target_price_max : ℚ
  weight_years_owned : ℚ
  weight_equity_gain : ℚ
  weight_neighborhood_turnover : ℚ
  weight_owner_occupied : ℚ
  weight_price_tier : ℚ
  weight_home_age : ℚ
deriving DecidableEq, Repr

/-- `ScoringEngine.DEFAULT_CONFIG`. -/
def DEFAULT_CONFIG : ScoringConfig where
  market_value_multiplier := 1.1
  hot_threshold := 80
  warm_threshold := 50
  min_years_owned := 3
  min_equity := 30000
  target_price_min := 200000
  target_price_max := 750000
  weight_years_owned := 0.25
  weight_equity_gain := 0.25
  weight_neighborhood_turnover := 0.15
  weight_owner_occupied := 0.10
  weight_price_tier := 0.15
  weight_home_age := 0.10

/-- A property record, typed view of the Master Properties row dictionary.
The string/None coercions (`float(x or 0)`, `'true'` parsing) that the Python
code applies to raw sheet cells are absorbed into the field types. -/
structure PropertyData where
  parcel_id : String
  address : String
  city : String
  zip : String
  county : String
  neighborhood : String
  owner_name : String
  owner_mailing_address : String
  is_owner_occupied : Bool
  purchase_date : Option ℤ          -- day ordinal
  purchase_price : ℚ
  years_owned : ℚ
  assessed_value : ℚ
  estimated_market_value : ℚ
  estimated_equity : ℚ
  equity_gain_pct : ℚ
  beds : Option ℤ
  baths : Option ℚ
  sqft : Option ℤ
  year_built : Option ℤ
  property_class : String
  propensity_score : Option ℤ
  td_fit_score : Option ℤ
  priority_tier : Option String
deriving DecidableEq, Repr

/-- One per-ZIP row of the Neighborhood Stats output
(`ScoringEngine.calculate_neighborhood_stats` result values). -/
structure NeighborhoodStatsOut where
  total_properties : ℕ
  avg_years_owned : ℚ
  avg_equity : ℚ
  avg_propensity_score : ℚ
  hot_lead_count : ℕ
  warm_lead_count : ℕ
  turnover_rate_12mo : ℚ
  last_updated : String
deriving DecidableEq, Repr

/-- `self.neighborhood_stats`: ZIP → stats association list. -/
abbrev StatsMap := List (String × NeighborhoodStatsOut)

/-- `ScoringEngine.calculate_years_owned_score`. -/
def calculate_years_owned_score (years_owned : ℚ) : ℤ :=
  if years_owned < 0 then 0
  else if years_owned < 2 then 10
  else if years_owned < 4 then 40
  else if years_owned < 7 then 80
  else if years_owned < 10 then 100
  else if years_owned < 15 then 70
  else if years_owned < 20 then 50
  else 40

/-- `ScoringEngine.calculate_equity_gain_score`. -/
def calculate_equity_gain_score (equity_gain_pct : ℚ) : ℤ :=
  if equity_gain_pct < 0 then 10
  else if equity_gain_pct < 10 then 10
  else if equity_gain_pct < 25 then 40
  else if equity_gain_pct < 50 then 70
  else if equity_gain_pct ≤ 100 then 100
  else 85

/-- `ScoringEngine.calculate_neighborhood_turnover_score`.  In the pipeline
every stats entry carries `turnover_rate_12mo`, so the dictionary lookup is a
plain association-list lookup. -/
def calculate_neighborhood_turnover_score (stats : StatsMap) (zip_code : String) : ℤ :=
  match stats.lookup zip_code with
  | none => 50
  | some st =>
    let turnover_rate := st.turnover_rate_12mo
    if turnover_rate < 3 then 30
    else if turnover_rate < 5 then 50
    else if turnover_rate < 8 then 75
    else if turnover_rate ≤ 12 then 100
    else 90

/-- `ScoringEngine.calculate_owner_occupied_score`. -/
def calculate_owner_occupied_score (is_owner_occupied : Bool) : ℤ :=
  if is_owner_occupied then 70 else 90

/-- `ScoringEngine.calculate_price_tier_score`. -/
def calculate_price_tier_score (cfg : ScoringConfig) (market_value : ℚ) : ℤ :=
  if market_value < cfg.target_price_min then 50
  else if market_value ≤ cfg.target_price_max then 100
  else 60

/-- `ScoringEngine.calculate_home_age_score`.  `not year_built or
year_built <= 0` (Python truthiness) becomes absent-or-nonpositive. -/
def calculate_home_age_score (current_year : ℤ) (year_built : Option ℤ) : ℤ :=
  match year_built with
  | none => 50
  | some yb =>
    if yb ≤ 0 then 50
    else
      let age := current_year - yb
      if age < 5 then 40
      else if age < 15 then 70
      else if age < 30 then 90
      else if age < 50 then 80
      else 60

/-- `ScoringEngine.calculate_propensity_score`. -/
def calculate_propensity_score (cfg : ScoringConfig) (stats : StatsMap)
    (current_year : ℤ) (p : PropertyData) : ℤ :=
  let years_owned_score := calculate_years_owned_score p.years_owned
  let equity_gain_score := calculate_equity_gain_score p.equity_gain_pct
  let turnover_score := calculate_neighborhood_turnover_score stats p.zip
  let owner_occupied_score := calculate_owner_occupied_score p.is_owner_occupied
  let price_tier_score := calculate_price_tier_score cfg p.estimated_market_value
  let home_age_score := calculate_home_age_score current_year p.year_built
  let score : ℚ :=
    years_owned_score * cfg.weight_years_owned +
    equity_gain_score * cfg.weight_equity_gain +
    turnover_score * cfg.weight_neighborhood_turnover +
    owner_occupied_score * cfg.weight_owner_occupied +
    price_tier_score * cfg.weight_price_tier +
    home_age_score * cfg.weight_home_age
  clamp100 (pyRound score)

/-- `NEIGHBORHOOD_MAP` from `address_utils.py`: ZIP → neighborhood name. -/
def NEIGHBORHOOD_MAP : List (String × String) :=
  [("43081", "Westerville"), ("43082", "Westerville"),
   ("43016", "Dublin"), ("43017", "Dublin"),
   ("43065", "Powell"), ("43230", "Gahanna"),
   ("43054", "New Albany"), ("43026", "Hilliard"),
   ("43220", "Upper Arlington"), ("43221", "Upper Arlington"),
   ("43085", "Worthington"), ("43123", "Grove City"),
   ("43147", "Pickerington"), ("43004", "Blacklick"),
   ("43202", "Clintonville"), ("43214", "Clintonville"),
   ("43015", "Delaware"), ("43035", "Lewis Center"),
   ("43074", "Sunbury")]

/-- `PRIMARY_SERVICE_ZIPS = set(NEIGHBORHOOD_MAP.keys())`. -/
def PRIMARY_SERVICE_ZIPS : List String := NEIGHBORHOOD_MAP.map Prod.fst

/-- `ADJACENT_AREA_ZIPS`. -/
def ADJACENT_AREA_ZIPS : List String :=
  ["43201", "43203", "43204", "43205", "43206", "43207", "43209",
   "43210", "43211", "43212", "43213", "43215", "43217", "43219",
   "43222", "43223", "43224", "43227", "43228", "43229", "43231",
   "43232", "43235", "43240"]

/-- `str(zip_code).strip()[:5] if zip_code else ''`. -/
def cleanZip (zip_code : String) : String :=
  if zip_code = "" then "" else (zip_code.trim.take 5)

/-- `get_neighborhood_type` from `address_utils.py`. -/
def get_neighborhood_type (zip_code : String) : String :=
  let z := cleanZip zip_code
  if z ∈ PRIMARY_SERVICE_ZIPS then "primary"
  else if z ∈ ADJACENT_AREA_ZIPS then "adjacent"
  else "other"

/-- `map_city_to_neighborhood` from `address_utils.py`.  Python's
`str.title()` titlecases the city for the fallback. -/
def pyTitleAux : Bool → List Char → List Char
  | _, [] => []
  | prevAlpha, c :: cs =>
    let c' := if prevAlpha then pyLowerChar c else pyUpperChar c
    c' :: pyTitleAux c.isAlpha cs

/-- Python `str.title()` (ASCII model). -/
def pyTitle (s : String) : String := String.mk (pyTitleAux false s.data)

/-- `map_city_to_neighborhood`. -/
def map_city_to_neighborhood (city : String) (zip_code : String) : String :=
  let z := cleanZip zip_code
  let c := if city = "" then "" else pyTitle city.trim
  match NEIGHBORHOOD_MAP.lookup z with
  | some n => n
  | none => if c ≠ "" then c else "Unknown"

/-- `ScoringEngine.calculate_td_fit_score`: fixed weights 0.25 / 0.35 /
0.20 / 0.20 on price tier, equity bucket, owner-occupancy, service area. -/
def calculate_td_fit_score (cfg : ScoringConfig) (p : PropertyData) : ℤ :=
  let price_score := calculate_price_tier_score cfg p.estimated_market_value
  let equity := p.estimated_equity
  let equity_fit : ℤ :=
    if equity < 50000 then 40
    else if equity < 100000 then 70
    else if equity < 200000 then 90
    else 100
  let owner_fit : ℤ := if p.is_owner_occupied then 100 else 60
  let neighborhood_type := get_neighborhood_type p.zip
  let neighborhood_fit : ℤ :=
    if neighborhood_type = "primary" then 100
    else if neighborhood_type = "adjacent" then 70
    else 40
  let total_score : ℚ :=
    price_score * 0.25 + equity_fit * 0.35 + owner_fit * 0.20 + neighborhood_fit * 0.20
  clamp100 (pyRound total_score)

/-- `ScoringEngine.determine_priority_tier`. -/
def determine_priority_tier (cfg : ScoringConfig) (propensity_score : ℤ) : String :=
  if (propensity_score : ℚ) ≥ cfg.hot_threshold then "HOT"
  else if (propensity_score : ℚ) ≥ cfg.warm_threshold then "WARM"
  else "COLD"

/-- A scored record as emitted by `ScoringEngine.score_properties`: the input
record updated with both scores, the tier, and the `last_updated` stamp. -/
structure ScoredProperty where
  data : PropertyData
  propensity_score : ℤ
  td_fit_score : ℤ
  priority_tier : String
  last_updated : String
deriving DecidableEq, Repr

/-- Body of the `score_properties` loop for one record.  In this typed model
the sub-score computations are total, so the per-record `try/except` that
drops throwing records never fires. -/
def score_one (cfg : ScoringConfig) (stats : StatsMap) (current_year : ℤ)
    (now : String) (p : PropertyData) : ScoredProperty :=
  let years_owned := p.years_owned
  let equity := p.estimated_equity
  let propensity_score := calculate_propensity_score cfg stats current_year p
  let td_fit_score := calculate_td_fit_score cfg p
  let tier0 := determine_priority_tier cfg propensity_score
  let priority_tier :=
    if years_owned < cfg.min_years_owned ∨ equity < cfg.min_equity then "COLD" else tier0
  ⟨p, propensity_score, td_fit_score, priority_tier, now⟩

/-- `ScoringEngine.score_properties`. -/
def score_properties (cfg : ScoringConfig) (stats : StatsMap) (current_year : ℤ)
    (now : String) (properties : List PropertyData) : List ScoredProperty :=
  properties.map (score_one cfg stats current_year now)

/-- The per-ZIP accumulator initialised by the `defaultdict` in
`calculate_neighborhood_stats`. -/
structure StatsAcc where
  total_properties : ℕ
  years_owned_sum : ℚ
  equity_sum : ℚ
  propensity_score_sum : ℤ
  hot_count : ℕ
  warm_count : ℕ
  recent_sales : ℕ
deriving DecidableEq, Repr

/-- The `defaultdict` default value. -/
def emptyStatsAcc : StatsAcc := ⟨0, 0, 0, 0, 0, 0, 0⟩

/-- One loop iteration's field updates for a record landing in a group.
`if propensity:` is Python truthiness, so an assigned score of 0 is skipped;
a recent sale is `(current_date - purchase_date).days <= 365`. -/
def statsAccAdd (current_date : ℤ) (s : StatsAcc) (p : PropertyData) : StatsAcc where
  total_properties := s.total_properties + 1
  years_owned_sum := s.years_owned_sum + p.years_owned
  equity_sum := s.equity_sum + p.estimated_equity
  propensity_score_sum := s.propensity_score_sum +
    (match p.propensity_score with
     | some v => if v = 0 then 0 else v
     | none => 0)
  hot_count := s.hot_count + (if p.priority_tier = some "HOT" then 1 else 0)
  warm_count := s.warm_count + (if p.priority_tier = some "WARM" then 1 else 0)
  recent_sales := s.recent_sales +
    (match p.purchase_date with
     | some d => if current_date - d ≤ 365 then 1 else 0
     | none => 0)

/-- Replace the value under `k`, or append `(k, v)` when `k` is absent —
the association-list picture of a Python dict update. -/
def upsert (k : String) (v : StatsAcc) : List (String × StatsAcc) → List (String × StatsAcc)
  | [] => [(k, v)]
  | (k', v') :: rest => if k' = k then (k, v) :: rest else (k', v') :: upsert k v rest

/-- One iteration of the grouping loop in `calculate_neighborhood_stats`:
records with an empty ZIP are skipped, otherwise the ZIP's accumulator is
fetched (default-constructed when absent) and updated. -/
def stats_step (current_date : ℤ) (acc : List (String × StatsAcc)) (p : PropertyData) :
    List (String × StatsAcc) :=
  if p.zip = "" then acc
  else
    let cur := (acc.lookup p.zip).getD emptyStatsAcc
    upsert p.zip (statsAccAdd current_date cur p) acc

/-- Final per-group row: averages and turnover, each `round(_, 2)`;
`avg_propensity_score` falls back to 0 when the sum is (Python-)falsy. -/
def statsAccFinish (now : String) (s : StatsAcc) : NeighborhoodStatsOut :=
  let total : ℚ := s.total_properties
  { total_properties := s.total_properties
    avg_years_owned := round2 (s.years_owned_sum / total)
    avg_equity := round2 (s.equity_sum / total)
    avg_propensity_score :=
      if s.propensity_score_sum ≠ 0 then round2 ((s.propensity_score_sum : ℚ) / total) else 0
    hot_lead_count := s.hot_count
    warm_lead_count := s.warm_count
    turnover_rate_12mo := round2 ((s.recent_sales : ℚ) / total * 100)
    last_updated := now }

/-- `ScoringEngine.calculate_neighborhood_stats`: single grouping pass,
then per-group averaging for groups with `total_properties > 0`. -/
def calculate_neighborhood_stats (current_date : ℤ) (now : String)
    (properties : List PropertyData) : StatsMap :=
  let grouped := properties.foldl (stats_step current_date) []
  grouped.filterMap (fun e =>
    if e.2.total_properties > 0 then some (e.1, statsAccFinish now e.2) else none)

/-- The run summary dictionary returned by `ScoringEngine.run`. -/
structure RunSummary where
  status : String
  records_processed : ℕ
  hot_leads : ℕ
  warm_leads : ℕ
  neighborhoods : ℕ
  errors : List String
deriving DecidableEq, Repr

/-- `ScoringEngine.run`, with the I/O collaborators abstracted: `properties`
is the batch read from the Master Properties tab and `write_errors` is the
list of error strings appended by failing sheet writes.  With no input the
code returns early with status `success`; otherwise the status is `success`
when the error list is empty and `partial` otherwise. -/
def run (cfg : ScoringConfig) (current_year current_date : ℤ) (now : String)
    (properties : List PropertyData) (write_errors : List String) : RunSummary :=
  if properties = [] then
    { status := "success", records_processed := 0, hot_leads := 0, warm_leads := 0,
      neighborhoods := 0, errors := [] }
  else
    let stats1 := calculate_neighborhood_stats current_date now properties
    let scored := score_properties cfg stats1 current_year now properties
    let stats2 := calculate_neighborhood_stats current_date now (scored.map
      (fun r => { r.data with
                  propensity_score := some r.propensity_score,
                  td_fit_score := some r.td_fit_score,
                  priority_tier := some r.priority_tier }))
    let hot := scored.filter (fun r => r.priority_tier = "HOT")
    let warm := scored.filter (fun r => r.priority_tier = "WARM")
    let errors := write_errors
    let status := if errors = [] then "success" else "partial"
    { status := status, records_processed := scored.length, hot_leads := hot.length,
      warm_leads := warm.length, neighborhoods := stats2.length, errors := errors }

/-- `STREET_TYPE_MAP` from `address_utils.py` (keys lowercase). -/
def STREET_TYPE_MAP : List (List Char × List Char) :=
  [("avenue".data, "AVE".data), ("ave".data, "AVE".data), ("av".data, "AVE".data),
   ("boulevard".data, "BLVD".data), ("blvd".data, "BLVD".data),
   ("circle".data, "CIR".data), ("cir".data, "CIR".data),
   ("court".data, "CT".data), ("ct".data, "CT".data),
   ("drive".data, "DR".data), ("dr".data, "DR".data), ("drv".data, "DR".data),
   ("highway".data, "HWY".data), ("hwy".data, "HWY".data),
   ("lane".data, "LN".data), ("ln".data, "LN".data),
   ("parkway".data, "PKWY".data), ("pkwy".data, "PKWY".data), ("pky".data, "PKWY".data),
   ("place".data, "PL".data), ("pl".data, "PL".data),
   ("road".data, "RD".data), ("rd".data, "RD".data),
   ("square".data, "SQ".data), ("sq".data, "SQ".data),
   ("street".data, "ST".data), ("st".data, "ST".data), ("str".data, "ST".data),
   ("terrace".data, "TER".data), ("ter".data, "TER".data), ("terr".data, "TER".data),
   ("trail".data, "TRL".data), ("trl".data, "TRL".data),
   ("way".data, "WAY".data)]

/-- `DIRECTION_MAP` from `address_utils.py`. -/
def DIRECTION_MAP : List (List Char × List Char) :=
  [("north".data, "N".data), ("n".data, "N".data),
   ("south".data, "S".data), ("s".data, "S".data),
   ("east".data, "E".data), ("e".data, "E".data),
   ("west".data, "W".data), ("w".data, "W".data),
   ("northeast".data, "NE".data), ("ne".data, "NE".data),
   ("northwest".data, "NW".data), ("nw".data, "NW".data),
   ("southeast".data, "SE".data), ("se".data, "SE".data),
   ("southwest".data, "SW".data), ("sw".data, "SW".data)]

/-- The unit/apartment designator tokens skipped together with their
following token: `['apt', 'apartment', 'unit', 'suite', 'ste', '#', 'lot']`. -/
def SKIP_WORDS : List (List Char) :=
  ["apt".data, "apartment".data, "unit".data, "suite".data, "ste".data,
   "#".data, "lot".data]

/-- `str.upper()` (ASCII model). -/
def upperL (l : List Char) : List Char := l.map pyUpperChar

/-- `str.lower()` (ASCII model). -/
def lowerL (l : List Char) : List Char := l.map pyLowerChar

/-- `re.sub(r'[.,#]', ' ', addr)`. -/
def stripPunctL (l : List Char) : List Char :=
  l.map (fun c => if c = '.' ∨ c = ',' ∨ c = '#' then ' ' else c)

/-- Helper for `str.split()`: split on whitespace runs, dropping empties;
`acc` is the word currently being read. -/
def wordsAux : List Char → List Char → List (List Char)
  | [], acc => if acc = [] then [] else [acc]
  | c :: cs, acc =>
    if c.isWhitespace then
      if acc = [] then wordsAux cs [] else acc :: wordsAux cs []
    else wordsAux cs (acc ++ [c])

/-- Python `str.split()` with no argument. -/
def wordsL (l : List Char) : List (List Char) := wordsAux l []

/-- The per-word loop of `normalize_address`, with Python's `skip_next`
flag: a designator word sets the flag, and the flagged word is dropped
unconditionally; otherwise direction lookup first, then street-type lookup,
then designator skip, else the word passes through. -/
def normalize_words_aux : Bool → List (List Char) → List (List Char)
  | _, [] => []
  | true, _ :: ws => normalize_words_aux false ws
  | false, w :: ws =>
    match DIRECTION_MAP.lookup (lowerL w) with
    | some d => d :: normalize_words_aux false ws
    | none =>
      match STREET_TYPE_MAP.lookup (lowerL w) with
      | some t => t :: normalize_words_aux false ws
      | none =>
        if lowerL w ∈ SKIP_WORDS then normalize_words_aux true ws
        else w :: normalize_words_aux false ws

/-- The word loop, starting with `skip_next = False`. -/
def normalize_words (ts : List (List Char)) : List (List Char) :=
  normalize_words_aux false ts

/-- `' '.join(words)`. -/
def joinSpace : List (List Char) → List Char
  | [] => []
  | [t] => t
  | t :: t' :: ts => t ++ ' ' :: joinSpace (t' :: ts)

/-- `normalize_address` body on character lists.  The Python `.strip()`
before the punctuation substitution only removes boundary whitespace, which
the whitespace split discards anyway. -/
def normalize_core (l : List Char) : List Char :=
  joinSpace (normalize_words (wordsL (stripPunctL (upperL l))))

/-- `normalize_address` from `address_utils.py` (`if not address: return ''`). -/
def normalize_address (address : String) : String :=
  if address = "" then "" else String.mk (normalize_core address.data)

/-- A calendar date, as produced by `datetime.strptime(...).date()`. -/
structure PyDate where
  year : ℕ
  month : ℕ
  day : ℕ
deriving DecidableEq, Repr

/-- Numeric value of a digit character. -/
def digitVal (c : Char) : ℕ := c.toNat - 48

/-- `strptime` `%m` directive (regex `1[0-2]|0[1-9]|[1-9]`, alternatives
tried left to right, with the single-digit fallback when the two-digit
branch cannot be followed by the rest of the pattern). -/
def parseMonthNum : List Char → Option (ℕ × List Char)
  | [] => none
  | [c] => if '1' ≤ c ∧ c ≤ '9' then some (digitVal c, []) else none
  | c1 :: c2 :: rest =>
    if c1 = '1' ∧ ('0' ≤ c2 ∧ c2 ≤ '2') then some (10 + digitVal c2, rest)
    else if c1 = '0' ∧ ('1' ≤ c2 ∧ c2 ≤ '9') then some (digitVal c2, rest)
    else if '1' ≤ c1 ∧ c1 ≤ '9' then some (digitVal c1, c2 :: rest)
    else none

/-- `strptime` `%d` directive (regex `3[01]|[12]\d|0[1-9]|[1-9]`). -/
def parseDayNum : List Char → Option (ℕ × List Char)
  | [] => none
  | [c] => if '1' ≤ c ∧ c ≤ '9' then some (digitVal c, []) else none
  | c1 :: c2 :: rest =>
    if c1 = '3' ∧ (c2 = '0' ∨ c2 = '1') then some (30 + digitVal c2, rest)
    else if (c1 = '1' ∨ c1 = '2') ∧ c2.isDigit then some (10 * digitVal c1 + digitVal c2, rest)
    else if c1 = '0' ∧ ('1' ≤ c2 ∧ c2 ≤ '9') then some (digitVal c2, rest)
    else if '1' ≤ c1 ∧ c1 ≤ '9' then some (digitVal c1, c2 :: rest)
    else none

/-- `strptime` `%Y` directive: exactly four digits. -/
def parseY4 : List Char → Option (ℕ × List Char)
  | c1 :: c2 :: c3 :: c4 :: rest =>
    if c1.isDigit ∧ c2.isDigit ∧ c3.isDigit ∧ c4.isDigit then
      some (digitVal c1 * 1000 + digitVal c2 * 100 + digitVal c3 * 10 + digitVal c4, rest)
    else none
  | _ => none

/-- `strptime` `%y` directive: exactly two digits; 00–68 → 2000s, 69–99 → 1900s. -/
def parseY2 : List Char → Option (ℕ × List Char)
  | c1 :: c2 :: rest =>
    if c1.isDigit ∧ c2.isDigit then
      let v := digitVal c1 * 10 + digitVal c2
      some (if v ≤ 68 then 2000 + v else 1900 + v, rest)
    else none
  | _ => none

/-- Full month names (lowercase) with their numbers, for `%B`. -/
def MONTH_NAMES_FULL : List (List Char × ℕ) :=
  [("january".data, 1), ("february".data, 2), ("march".data, 3), ("april".data, 4),
   ("may".data, 5), ("june".data, 6), ("july".data, 7), ("august".data, 8),
   ("september".data, 9), ("october".data, 10), ("november".data, 11), ("december".data, 12)]

/-- Abbreviated month names (lowercase) with their numbers, for `%b`. -/
def MONTH_NAMES_ABBR : List (List Char × ℕ) :=
  [("jan".data, 1), ("feb".data, 2), ("mar".data, 3), ("apr".data, 4),
   ("may".data, 5), ("jun".data, 6), ("jul".data, 7), ("aug".data, 8),
   ("sep".data, 9), ("oct".data, 10), ("nov".data, 11), ("dec".data, 12)]

/-- Case-insensitive month-name match (no month name is a prefix of
another, so the regex's longest-first alternation reduces to any-first). -/
def parseMonthName (names : List (List Char × ℕ)) (l : List Char) : Option (ℕ × List Char) :=
  names.findSome? (fun e =>
    if e.1.isPrefixOf (lowerL l) then some (e.2, l.drop e.1.length) else none)

/-- Format directives appearing in the eight formats tried by `parse_date`.
A literal space in a `strptime` format matches one or more whitespace
characters; other literals match exactly. -/
inductive Fmt
  | lit (c : Char)
  | ws
  | m
  | d
  | Y
  | y
  | B
  | b
deriving DecidableEq, Repr

/-- Run a format against input, anchored at both ends (`strptime` rejects
trailing input), threading the (year, month, day) fields found so far. -/
def matchFmt : List Fmt → List Char → ℕ × ℕ × ℕ → Option (ℕ × ℕ × ℕ)
  | [], [], st => some st
  | [], _ :: _, _ => none
  | f :: fs, l, st =>
    match f with
    | .lit c =>
      match l with
      | c' :: rest => if c' = c then matchFmt fs rest st else none
      | [] => none
    | .ws =>
      match l with
      | c' :: rest =>
        if c'.isWhitespace then matchFmt fs (rest.dropWhile Char.isWhitespace) st else none
      | [] => none
    | .m =>
      match parseMonthNum l with
      | some (v, rest) => matchFmt fs rest (st.1, v, st.2.2)
      | none => none
    | .d =>
      match parseDayNum l with
      | some (v, rest) => matchFmt fs rest (st.1, st.2.1, v)
      | none => none
    | .Y =>
      match parseY4 l with
      | some (v, rest) => matchFmt fs rest (v, st.2.1, st.2.2)
      | none => none
    | .y =>
      match parseY2 l with
      | some (v, rest) => matchFmt fs rest (v, st.2.1, st.2.2)
      | none => none
    | .B =>
      match parseMonthName MONTH_NAMES_FULL l with
      | some (v, rest) => matchFmt fs rest (st.1, v, st.2.2)
      | none => none
    | .b =>
      match parseMonthName MONTH_NAMES_ABBR l with
      | some (v, rest) => matchFmt fs rest (st.1, v, st.2.2)
      | none => none

/-- Gregorian leap year. -/
def isLeap (y : ℕ) : Bool := y % 4 = 0 ∧ (y % 100 ≠ 0 ∨ y % 400 = 0)

/-- Days in a month. -/
def daysInMonth (y m : ℕ) : ℕ :=
  if m = 2 then (if isLeap y then 29 else 28)
  else if m = 4 ∨ m = 6 ∨ m = 9 ∨ m = 11 then 30
  else 31

/-- `datetime.date(y, m, d)` — raises (here: `none`) outside the valid
calendar range, which is what turns `02/30/2020` into a format failure. -/
def mkDate (y m d : ℕ) : Option PyDate :=
  if 1 ≤ y ∧ y ≤ 9999 ∧ 1 ≤ m ∧ m ≤ 12 ∧ 1 ≤ d ∧ d ≤ daysInMonth y m then
    some ⟨y, m, d⟩
  else none

/-- `datetime.strptime(s, fmt).date()` for one format. -/
def tryFormat (fmt : List Fmt) (l : List Char) : Option PyDate :=
  match matchFmt fmt l (1900, 1, 1) with
  | some (yy, mm, dd) => mkDate yy mm dd
  | none => none

/-- The ordered format list of `parse_date`. -/
def DATE_FORMATS : List (List Fmt) :=
  [[.m, .lit '/', .d, .lit '/', .Y],
   [.Y, .lit '-', .m, .lit '-', .d],
   [.m, .lit '-', .d, .lit '-', .Y],
   [.B, .ws, .d, .lit ',', .ws, .Y],
   [.b, .ws, .d, .lit ',', .ws, .Y],
   [.Y, .lit '/', .m, .lit '/', .d],
   [.d, .lit '-', .b, .lit '-', .Y],
   [.m, .lit '/', .d, .lit '/', .y]]

/-- Python `str.strip()` on a character list. -/
def stripL (l : List Char) : List Char :=
  ((l.dropWhile Char.isWhitespace).reverse.dropWhile Char.isWhitespace).reverse

/-- `parse_date` from `address_utils.py`: sentinel strings short-circuit,
then the formats are tried in order and the first success wins; every
failure path yields `none`, never an error. -/
def parse_date (date_string : String) : Option PyDate :=
  if date_string = "" ∨ date_string = "N/A" ∨ date_string = "None" ∨ date_string = "null" then
    none
  else
    DATE_FORMATS.findSome? (fun fmt => tryFormat fmt (stripL date_string.data))

/-- Day ordinal of a date (days since 1970-01-01, civil-calendar formula);
models `datetime.date` subtraction. -/
def dateOrdinal (dt : PyDate) : ℤ :=
  let y : ℤ := if dt.month ≤ 2 then (dt.year : ℤ) - 1 else (dt.year : ℤ)
  let era : ℤ := y / 400
  let yoe : ℤ := y - era * 400
  let mp : ℤ := ((dt.month : ℤ) + 9) % 12
  let doy : ℤ := (153 * mp + 2) / 5 + (dt.day : ℤ) - 1
  let doe : ℤ := yoe * 365 + yoe / 4 - yoe / 100 + doy
  era * 146097 + doe - 719468

/-- `calculate_years_owned` from `address_utils.py`:
`round(max(0, (today - purchase_date).days / 365.25), 2)`, and 0.0 for a
missing date. -/
def calculate_years_owned (purchase_date : Option PyDate) (today : ℤ) : ℚ :=
  match purchase_date with
  | none => 0
  | some dt => round2 (max 0 (((today - dateOrdinal dt : ℤ) : ℚ) / (1461/4)))

/-- Python truthiness of an optional float: `None` and `0.0` are falsy. -/
def pyFalsyQ : Option ℚ → Bool
  | none => true
  | some q => q == 0

/-- `calculate_equity` from `address_utils.py`:
`if not market_value or not purchase_price or purchase_price <= 0: (0.0, 0.0)`. -/
def calculate_equity (market_value purchase_price : Option ℚ) : ℚ × ℚ :=
  if pyFalsyQ market_value ∨ pyFalsyQ purchase_price ∨ purchase_price.getD 0 ≤ 0 then
    (0, 0)
  else
    let mv := market_value.getD 0
    let pp := purchase_price.getD 0
    let equity := mv - pp
    (round2 equity, round2 (equity / pp * 100))

/-- `is_owner_occupied` from `address_utils.py`.  The edit-distance
similarity (`difflib.SequenceMatcher(None, a, b).ratio()`) is passed in as
an explicit parameter `ratio`; no claim depends on its value. -/
def is_owner_occupied (ratio : String → String → ℚ)
    (property_address mailing_address : String) (threshold : ℚ) : Bool :=
  if property_address = "" ∨ mailing_address = "" then false
  else
    let norm_property := normalize_address property_address
    let norm_mailing := normalize_address mailing_address
    if norm_property = norm_mailing then true
    else
      let prop_street := ((norm_property.splitOn ",").headD "").trim
      let mail_street := ((norm_mailing.splitOn ",").headD "").trim
      if prop_street = mail_street then true
      else decide (threshold ≤ ratio prop_street mail_street)

/-- `format_property_record` from `address_utils.py` (the record builder):
parse the purchase date, derive years owned, market value, equity and
equity-gain %, neighborhood and owner-occupancy, then assemble the row.
Optional numeric inputs model cells that may be `None`. -/
def format_property_record (ratio : String → String → ℚ) (today : ℤ)
    (parcel_id address city zip_code county owner_name owner_mailing_address : String)
    (purchase_date : String) (purchase_price assessed_value : Option ℚ)
    (beds : Option ℤ) (baths : Option ℚ) (sqft : Option ℤ) (year_built : Option ℤ)
    (property_class : String) (market_value_multiplier : ℚ) : PropertyData :=
  let parsed_date := parse_date purchase_date
  let years_owned := calculate_years_owned parsed_date today
  let estimated_market_value :=
    if pyFalsyQ assessed_value then 0 else assessed_value.getD 0 * market_value_multiplier
  let eq_pair := calculate_equity (some estimated_market_value) purchase_price
  { parcel_id := parcel_id.trim
    address := address.trim
    city := city.trim
    zip := cleanZip zip_code
    county := county.trim
    neighborhood := map_city_to_neighborhood city zip_code
    owner_name := owner_name.trim
    owner_mailing_address := owner_mailing_address.trim
    is_owner_occupied := is_owner_occupied ratio address owner_mailing_address 0.85
    purchase_date := parsed_date.map dateOrdinal
    purchase_price := purchase_price.getD 0
    years_owned := years_owned
    assessed_value := assessed_value.getD 0
    estimated_market_value := round2 estimated_market_value
    estimated_equity := eq_pair.1
    equity_gain_pct := eq_pair.2
    beds := beds
    baths := baths
    sqft := sqft
    year_built := year_built
    property_class := property_class.trim
    propensity_score := none
    td_fit_score := none
    priority_tier := none }

/-! ### Spec-side definitions (written from the spec's factor table, §4.3)
for the refinement claim about the propensity score. -/

/-- Spec table: years_owned row. -/
def spec_years_owned_subscore (y : ℚ) : ℤ :=
  if y < 0 then 0 else if y < 2 then 10 else if y < 4 then 40 else if y < 7 then 80
  else if y < 10 then 100 else if y < 15 then 70 else if y < 20 then 50 else 40

/-- Spec table: equity_gain_pct row. -/
def spec_equity_gain_subscore (g : ℚ) : ℤ :=
  if g < 0 then 10 else if g < 10 then 10 else if g < 25 then 40 else if g < 50 then 70
  else if g ≤ 100 then 100 else 85

/-- Spec table: neighborhood turnover row (unknown ZIP → 50). -/
def spec_turnover_subscore (stats : StatsMap) (zip_code : String) : ℤ :=
  match stats.lookup zip_code with
  | none => 50
  | some st =>
    if st.turnover_rate_12mo < 3 then 30 else if st.turnover_rate_12mo < 5 then 50
    else if st.turnover_rate_12mo < 8 then 75 else if st.turnover_rate_12mo ≤ 12 then 100
    else 90

/-- Spec table: owner_occupied row (absentee owners score higher). -/
def spec_owner_occupied_subscore (occupied : Bool) : ℤ := if occupied then 70 else 90

/-- Spec table: price_tier row with the default target range [200000, 750000]. -/
def spec_price_tier_subscore (market_value : ℚ) : ℤ :=
  if market_value < 200000 then 50 else if market_value ≤ 750000 then 100 else 60

/-- Spec table: home_age row.  "Unknown" is an absent or nonpositive
`year_built` (records encode a missing year as 0). -/
def spec_home_age_subscore (current_year : ℤ) (year_built : Option ℤ) : ℤ :=
  match year_built with
  | none => 50
  | some yb =>
    if yb ≤ 0 then 50
    else if current_year - yb < 5 then 40 else if current_year - yb < 15 then 70
    else if current_year - yb < 30 then 90 else if current_year - yb < 50 then 80
    else 60

/-- Spec §4.3: Σ sub-score × default weight
(0.25, 0.25, 0.15, 0.10, 0.15, 0.10). -/
def spec_weighted_sum (stats : StatsMap) (current_year : ℤ) (p : PropertyData) : ℚ :=
  spec_years_owned_subscore p.years_owned * 0.25 +
  spec_equity_gain_subscore p.equity_gain_pct * 0.25 +
  spec_turnover_subscore stats p.zip * 0.15 +
  spec_owner_occupied_subscore p.is_owner_occupied * 0.10 +
  spec_price_tier_subscore p.estimated_market_value * 0.15 +
  spec_home_age_subscore current_year p.year_built * 0.10

/-! ### Sample data for witnesses. -/

/-- A concrete, fully populated property record. -/
def samplePD : PropertyData where
  parcel_id := "010-000001"
  address := "123 Main St"
  city := "Westerville"
  zip := "43081"
  county := "Franklin"
  neighborhood := "Westerville"
  owner_name := "Jane Doe"
  owner_mailing_address := "123 Main St"
  is_owner_occupied := true
  purchase_date := some 18276
  purchase_price := 250000
  years_owned := 6
  assessed_value := 300000
  estimated_market_value := 330000
  estimated_equity := 80000
  equity_gain_pct := 32
  beds := some 3
  baths := some 2
  sqft := some 1800
  year_built := some 2005
  property_class := "R"
  propensity_score := none
  td_fit_score := none
  priority_tier := none

/-! ### Claim theorems. -/

/-- **C1.** For every property record (and any neighborhood stats and
current year), the propensity score computed by the engine under the default
configuration equals round(Σ sub-score × weight) clamped to [0, 100], where
the six sub-scores are the spec's step functions and the weights are the
default 0.25 / 0.25 / 0.15 / 0.10 / 0.15 / 0.10. -/
theorem propensity_matches_spec_table (stats : StatsMap) (current_year : ℤ)
    (p : PropertyData) :
    calculate_propensity_score DEFAULT_CONFIG stats current_year p =
      min 100 (max 0 (pyRound (spec_weighted_sum stats current_year p))) := by
  rfl

/-- `score_one` field unfoldings. -/
lemma score_one_priority_tier (cfg : ScoringConfig) (stats : StatsMap)
    (current_year : ℤ) (now : String) (p : PropertyData) :
    (score_one cfg stats current_year now p).priority_tier =
      if p.years_owned < cfg.min_years_owned ∨ p.estimated_equity < cfg.min_equity
      then "COLD"
      else determine_priority_tier cfg (calculate_propensity_score cfg stats current_year p) :=
  rfl

lemma score_one_propensity (cfg : ScoringConfig) (stats : StatsMap)
    (current_year : ℤ) (now : String) (p : PropertyData) :
    (score_one cfg stats current_year now p).propensity_score =
      calculate_propensity_score cfg stats current_year p :=
  rfl

lemma score_one_td_fit (cfg : ScoringConfig) (stats : StatsMap)
    (current_year : ℤ) (now : String) (p : PropertyData) :
    (score_one cfg stats current_year now p).td_fit_score =
      calculate_td_fit_score cfg p :=
  rfl

/-- **C2.** For every scored record: when both eligibility floors are met the
tier is HOT iff propensity ≥ hot_threshold, WARM iff warm ≤ propensity < hot,
COLD iff propensity < warm; when either floor is missed the tier is COLD
regardless of the computed propensity.  (The threshold characterisation of
COLD presupposes warm_threshold ≤ hot_threshold, true of the defaults.) -/
theorem tier_threshold_consistency (cfg : ScoringConfig) (stats : StatsMap)
    (current_year : ℤ) (now : String) (p : PropertyData)
    (hw : cfg.warm_threshold ≤ cfg.hot_threshold) :
    ((cfg.min_years_owned ≤ p.years_owned ∧ cfg.min_equity ≤ p.estimated_equity) →
      (((score_one cfg stats current_year now p).priority_tier = "HOT" ↔
          cfg.hot_threshold ≤ ((score_one cfg stats current_year now p).propensity_score : ℚ)) ∧
       ((score_one cfg stats current_year now p).priority_tier = "WARM" ↔
          cfg.warm_threshold ≤ ((score_one cfg stats current_year now p).propensity_score : ℚ) ∧
          ((score_one cfg stats current_year now p).propensity_score : ℚ) < cfg.hot_threshold) ∧
       ((score_one cfg stats current_year now p).priority_tier = "COLD" ↔
          ((score_one cfg stats current_year now p).propensity_score : ℚ) < cfg.warm_threshold))) ∧
    ((p.years_owned < cfg.min_years_owned ∨ p.estimated_equity < cfg.min_equity) →
      (score_one cfg stats current_year now p).priority_tier = "COLD") := by
  constructor
  · rintro ⟨h1, h2⟩
    have hcond : ¬ (p.years_owned < cfg.min_years_owned ∨ p.estimated_equity < cfg.min_equity) := by
      rintro (h | h)
      · exact absurd h (not_lt.mpr h1)
      · exact absurd h (not_lt.mpr h2)
    rw [score_one_priority_tier, if_neg hcond, score_one_propensity]
    set n : ℚ := ((calculate_propensity_score cfg stats current_year p : ℤ) : ℚ) with hn
    unfold determine_priority_tier
    rw [← hn]
    rcases le_or_lt cfg.hot_threshold n with hh | hh
    · rw [if_pos hh]
      refine ⟨iff_of_true rfl hh, ?_, ?_⟩
      · refine iff_of_false (by decide) ?_
        rintro ⟨_, hlt⟩
        exact absurd hh (not_le.mpr hlt)
      · refine iff_of_false (by decide) ?_
        intro hlt
        exact absurd hh (not_le.mpr (lt_of_lt_of_le hlt hw))
    · rw [if_neg (not_le.mpr hh)]
      rcases le_or_lt cfg.warm_threshold n with hw2 | hw2
      · rw [if_pos hw2]
        refine ⟨?_, iff_of_true rfl ⟨hw2, hh⟩, ?_⟩
        · exact iff_of_false (by decide) (fun h => absurd h (not_le.mpr hh))
        · exact iff_of_false (by decide) (fun h => absurd hw2 (not_le.mpr h))
      · rw [if_neg (not_le.mpr hw2)]
        refine ⟨?_, ?_, iff_of_true rfl hw2⟩
        · exact iff_of_false (by decide) (fun h => absurd h (not_le.mpr hh))
        · exact iff_of_false (by decide) (fun h => absurd h.1 (not_le.mpr hw2))
  · intro hcond
    rw [score_one_priority_tier, if_pos hcond]

/-- Witness for C2 at the default configuration and a concrete record. -/
theorem tier_threshold_consistency_witness :
    DEFAULT_CONFIG.warm_threshold ≤ DEFAULT_CONFIG.hot_threshold ∧
    (((DEFAULT_CONFIG.min_years_owned ≤ samplePD.years_owned ∧
       DEFAULT_CONFIG.min_equity ≤ samplePD.estimated_equity) →
      (((score_one DEFAULT_CONFIG [] 2026 "t" samplePD).priority_tier = "HOT" ↔
          DEFAULT_CONFIG.hot_threshold ≤
            ((score_one DEFAULT_CONFIG [] 2026 "t" samplePD).propensity_score : ℚ)) ∧
       ((score_one DEFAULT_CONFIG [] 2026 "t" samplePD).priority_tier = "WARM" ↔
          DEFAULT_CONFIG.warm_threshold ≤
            ((score_one DEFAULT_CONFIG [] 2026 "t" samplePD).propensity_score : ℚ) ∧
          ((score_one DEFAULT_CONFIG [] 2026 "t" samplePD).propensity_score : ℚ) <
            DEFAULT_CONFIG.hot_threshold) ∧
       ((score_one DEFAULT_CONFIG [] 2026 "t" samplePD).priority_tier = "COLD" ↔
          ((score_one DEFAULT_CONFIG [] 2026 "t" samplePD).propensity_score : ℚ) <
            DEFAULT_CONFIG.warm_threshold))) ∧
     ((samplePD.years_owned < DEFAULT_CONFIG.min_years_owned ∨
       samplePD.estimated_equity < DEFAULT_CONFIG.min_equity) →
      (score_one DEFAULT_CONFIG [] 2026 "t" samplePD).priority_tier = "COLD")) :=
  ⟨by decide, tier_threshold_consistency DEFAULT_CONFIG [] 2026 "t" samplePD (by decide)⟩

/-- **C6.** Scoring is deterministic: with the batch, config, stats and
current year fixed, two scoring passes (with different wall-clock stamps
`t1`, `t2`, which only enter `last_updated`) agree on propensity_score,
td_fit_score and priority_tier for every record. -/
theorem scoring_deterministic (cfg : ScoringConfig) (stats : StatsMap)
    (current_year : ℤ) (t1 t2 : String) (properties : List PropertyData) :
    (score_properties cfg stats current_year t1 properties).map
        (fun r => (r.propensity_score, r.td_fit_score, r.priority_tier)) =
      (score_properties cfg stats current_year t2 properties).map
        (fun r => (r.propensity_score, r.td_fit_score, r.priority_tier)) := by
  simp only [score_properties, List.map_map]
  rfl

/-- **C8.** If `purchase_price` is 0 or absent, `calculate_equity` returns
`(0.0, 0.0)`; the division by `purchase_price` sits in the other branch, so
no division by zero is performed. -/
theorem equity_zero_when_no_price (market_value purchase_price : Option ℚ)
    (h : purchase_price = none ∨ purchase_price = some 0) :
    calculate_equity market_value purchase_price = (0, 0) := by
  rcases h with rfl | rfl <;> simp [calculate_equity, pyFalsyQ]

/-- Witness for C8 at a concrete market value and a zero purchase price. -/
theorem equity_zero_when_no_price_witness :
    ((some (0 : ℚ) : Option ℚ) = none ∨ (some (0 : ℚ) : Option ℚ) = some 0) ∧
    calculate_equity (some 330000) (some 0) = (0, 0) :=
  ⟨Or.inr rfl, equity_zero_when_no_price (some 330000) (some 0) (Or.inr rfl)⟩

/-- `clamp100` stays in [0, 100]. -/
lemma clamp100_nonneg (n : ℤ) : 0 ≤ clamp100 n :=
  le_min (by norm_num) (le_max_left 0 n)

lemma clamp100_le_100 (n : ℤ) : clamp100 n ≤ 100 :=
  min_le_left _ _

lemma propensity_score_bounds (cfg : ScoringConfig) (stats : StatsMap)
    (current_year : ℤ) (p : PropertyData) :
    0 ≤ calculate_propensity_score cfg stats current_year p ∧
      calculate_propensity_score cfg stats current_year p ≤ 100 := by
  unfold calculate_propensity_score
  exact ⟨clamp100_nonneg _, clamp100_le_100 _⟩

lemma td_fit_score_bounds (cfg : ScoringConfig) (p : PropertyData) :
    0 ≤ calculate_td_fit_score cfg p ∧ calculate_td_fit_score cfg p ≤ 100 := by
  unfold calculate_td_fit_score
  exact ⟨clamp100_nonneg _, clamp100_le_100 _⟩

/-- **C9.** Every record emitted by the scoring engine has
0 ≤ propensity_score ≤ 100 and 0 ≤ td_fit_score ≤ 100. -/
theorem emitted_scores_bounded (cfg : ScoringConfig) (stats : StatsMap)
    (current_year : ℤ) (now : String) (properties : List PropertyData)
    (r : ScoredProperty) (hr : r ∈ score_properties cfg stats current_year now properties) :
    0 ≤ r.propensity_score ∧ r.propensity_score ≤ 100 ∧
      0 ≤ r.td_fit_score ∧ r.td_fit_score ≤ 100 := by
  rcases List.mem_map.mp hr with ⟨p, _, rfl⟩
  rw [score_one_propensity, score_one_td_fit]
  exact ⟨(propensity_score_bounds cfg stats current_year p).1,
         (propensity_score_bounds cfg stats current_year p).2,
         (td_fit_score_bounds cfg p).1, (td_fit_score_bounds cfg p).2⟩

/-- Witness for C9 on a singleton batch. -/
theorem emitted_scores_bounded_witness :
    score_one DEFAULT_CONFIG [] 2026 "t" samplePD ∈
        score_properties DEFAULT_CONFIG [] 2026 "t" [samplePD] ∧
    (0 ≤ (score_one DEFAULT_CONFIG [] 2026 "t" samplePD).propensity_score ∧
      (score_one DEFAULT_CONFIG [] 2026 "t" samplePD).propensity_score ≤ 100 ∧
      0 ≤ (score_one DEFAULT_CONFIG [] 2026 "t" samplePD).td_fit_score ∧
      (score_one DEFAULT_CONFIG [] 2026 "t" samplePD).td_fit_score ≤ 100) :=
  ⟨List.mem_singleton.mpr rfl,
   emitted_scores_bounded DEFAULT_CONFIG [] 2026 "t" [samplePD] _
     (List.mem_singleton.mpr rfl)⟩

/-- **C3, counterexample.** With no input records the run reports status
`success` (early return with 0 records), not the fatal status `error` the
claim requires. -/
theorem run_empty_reports_success :
    (run DEFAULT_CONFIG 2026 20000 "t" [] []).status = "success" ∧
    (run DEFAULT_CONFIG 2026 20000 "t" [] []).status ≠ "error" :=
  ⟨rfl, by decide⟩

/-- **C3, amended.** The run summary's status is always `success` (empty
error list) or `partial` (some errors); `error` is never produced, and with
no input records the run reports `success` with 0 records processed. -/
theorem run_status_success_or_partial (cfg : ScoringConfig)
    (current_year current_date : ℤ) (now : String)
    (properties : List PropertyData) (write_errors : List String) :
    ((run cfg current_year current_date now properties write_errors).status = "success" ∨
      (run cfg current_year current_date now properties write_errors).status = "partial") ∧
    (properties = [] →
      (run cfg current_year current_date now properties write_errors).status = "success" ∧
      (run cfg current_year current_date now properties write_errors).records_processed = 0) := by
  constructor
  · by_cases hp : properties = []
    · left
      unfold run
      rw [if_pos hp]
    · unfold run
      rw [if_neg hp]
      by_cases he : write_errors = []
      · left
        simp [he]
      · right
        simp [he]
  · intro hp
    unfold run
    rw [if_pos hp]
    exact ⟨rfl, rfl⟩

/-- Witness for C3 (amended) at the empty batch. -/
theorem run_status_success_or_partial_witness :
    (([] : List PropertyData) = []) ∧
    (((run DEFAULT_CONFIG 2026 20000 "t" [] []).status = "success" ∨
       (run DEFAULT_CONFIG 2026 20000 "t" [] []).status = "partial") ∧
     (([] : List PropertyData) = [] →
       (run DEFAULT_CONFIG 2026 20000 "t" [] []).status = "success" ∧
       (run DEFAULT_CONFIG 2026 20000 "t" [] []).records_processed = 0)) :=
  ⟨rfl, run_status_success_or_partial DEFAULT_CONFIG 2026 20000 "t" [] []⟩

/-- `findSome?` over a list where every element fails. -/
lemma findSome?_eq_none_of_all {α β : Type} (f : α → Option β) :
    ∀ l : List α, (∀ x ∈ l, f x = none) → l.findSome? f = none := by
  intro l h
  induction l with
  | nil => rfl
  | cons a t ih =>
    rw [List.findSome?_cons, h a (List.mem_cons_self a t)]
    exact ih (fun x hx => h x (List.mem_cons_of_mem a hx))

/-- The record builder's `years_owned` is derived from the parsed date. -/
lemma format_record_years_owned (ratio : String → String → ℚ) (today : ℤ)
    (parcel_id address city zip_code county owner_name owner_mailing_address : String)
    (purchase_date : String) (purchase_price assessed_value : Option ℚ)
    (beds : Option ℤ) (baths : Option ℚ) (sqft : Option ℤ) (year_built : Option ℤ)
    (property_class : String) (market_value_multiplier : ℚ) :
    (format_property_record ratio today parcel_id address city zip_code county
        owner_name owner_mailing_address purchase_date purchase_price assessed_value
        beds baths sqft year_built property_class market_value_multiplier).years_owned =
      calculate_years_owned (parse_date purchase_date) today :=
  rfl

/-- **C7.** For any input string matched by none of the supported date
formats, `parse_date` returns `none` (not an error), and the record builder
then sets `years_owned` to 0.0 instead of failing. -/
theorem parse_date_fallback (s : String)
    (h : ∀ fmt ∈ DATE_FORMATS, tryFormat fmt (stripL s.data) = none)
    (ratio : String → String → ℚ) (today : ℤ)
    (parcel_id address city zip_code county owner_name owner_mailing_address : String)
    (purchase_price assessed_value : Option ℚ)
    (beds : Option ℤ) (baths : Option ℚ) (sqft : Option ℤ) (year_built : Option ℤ)
    (property_class : String) (market_value_multiplier : ℚ) :
    parse_date s = none ∧
    (format_property_record ratio today parcel_id address city zip_code county
        owner_name owner_mailing_address s purchase_price assessed_value
        beds baths sqft year_built property_class market_value_multiplier).years_owned = 0 := by
  have hp : parse_date s = none := by
    unfold parse_date
    split
    · rfl
    · exact findSome?_eq_none_of_all _ DATE_FORMATS h
  refine ⟨hp, ?_⟩
  rw [format_record_years_owned, hp]
  rfl

/-- Witness for C7 at the input `"not a date"`. -/
theorem parse_date_fallback_witness :
    (∀ fmt ∈ DATE_FORMATS, tryFormat fmt (stripL "not a date".data) = none) ∧
    (parse_date "not a date" = none ∧
     (format_property_record (fun _ _ => 0) 20000 "p" "1 Main St" "Columbus" "43081"
        "Franklin" "o" "1 Main St" "not a date" (some 250000) (some 300000)
        none none none none "" 1.1).years_owned = 0) :=
  ⟨by decide,
   parse_date_fallback "not a date" (by decide) (fun _ _ => 0) 20000 "p" "1 Main St"
     "Columbus" "43081" "Franklin" "o" "1 Main St" (some 250000) (some 300000)
     none none none none "" 1.1⟩

/-- **C5 (code bug).** `normalize_address` evaluated at the failing input:
the `'#'` entry in the skip list is dead code, because `re.sub(r'[.,#]', ' ')`
has already replaced the `#` with a space, so for `"#5"` the trailing `"5"`
survives in the output (the claim — and the skip list's evident intent —
require it to be dropped).  The other designator forms work as claimed. -/
theorem normalize_address_hash_unit_survives :
    normalize_address "321 SW Park Rd #5" = "321 SW PARK RD 5" ∧
    normalize_address "456 Oak Avenue, Apt 2B" = "456 OAK AVE" ∧
    normalize_address "100 Main St Unit 5" = "100 MAIN ST" ∧
    normalize_address "100 Main St Ste 100" = "100 MAIN ST" ∧
    normalize_address "100 Main St Lot 12" = "100 MAIN ST" :=
  ⟨rfl, rfl, rfl, rfl, rfl⟩

/-! ### Aggregator lemmas (C4): the single grouping pass is the per-ZIP
fold over the records of that ZIP. -/

/-- `isRecentSale cd p` is the loop's recent-sale test:
`(current_date - purchase_date).days <= 365` (note: no lower bound, so a
future-dated purchase also counts). -/
def isRecentSale (current_date : ℤ) (p : PropertyData) : Bool :=
  match p.purchase_date with
  | some d => current_date - d ≤ 365
  | none => false

lemma lookup_upsert (k zip : String) (v : StatsAcc) :
    ∀ l, (upsert k v l).lookup zip = if zip = k then some v else l.lookup zip := by
  intro l
  induction l with
  | nil =>
    by_cases h : zip = k
    · subst h; simp [upsert, List.lookup_cons]
    · simp [upsert, List.lookup_cons, beq_false_of_ne h, h]
  | cons e t ih =>
    obtain ⟨k', v'⟩ := e
    by_cases h1 : k' = k
    · subst h1
      by_cases h2 : zip = k'
      · subst h2; simp [upsert, List.lookup_cons]
      · simp [upsert, List.lookup_cons, beq_false_of_ne h2, h2]
    · by_cases h2 : zip = k'
      · subst h2
        have h1' : zip ≠ k := h1
        simp [upsert, h1, List.lookup_cons, h1']
      · simp [upsert, h1, List.lookup_cons, beq_false_of_ne h2, h2, ih]

lemma lookup_stats_step (cd : ℤ) (acc : List (String × StatsAcc)) (p : PropertyData)
    (zip : String) (hz : zip ≠ "") :
    (stats_step cd acc p).lookup zip =
      if p.zip = zip
      then some (statsAccAdd cd ((acc.lookup zip).getD emptyStatsAcc) p)
      else acc.lookup zip := by
  unfold stats_step
  by_cases hpz : p.zip = ""
  · have hne : ¬(p.zip = zip) := fun h => hz (h ▸ hpz)
    rw [if_pos hpz, if_neg hne]
  · rw [if_neg hpz]
    dsimp only
    rw [lookup_upsert]
    by_cases h2 : zip = p.zip
    · subst h2
      simp
    · have h2' : ¬(p.zip = zip) := fun h => h2 h.symm
      rw [if_neg h2, if_neg h2']

lemma lookup_foldl_stats (cd : ℤ) (zip : String) (hz : zip ≠ "") :
    ∀ (props : List PropertyData) (acc : List (String × StatsAcc)),
      (props.foldl (stats_step cd) acc).lookup zip =
        if acc.lookup zip = none ∧ props.filter (fun p => p.zip == zip) = [] then none
        else some ((props.filter (fun p => p.zip == zip)).foldl (statsAccAdd cd)
          ((acc.lookup zip).getD emptyStatsAcc)) := by
  intro props
  induction props with
  | nil =>
    intro acc
    cases h : acc.lookup zip <;> simp [h]
  | cons p rest ih =>
    intro acc
    rw [List.foldl_cons, ih (stats_step cd acc p), lookup_stats_step cd acc p zip hz]
    by_cases hp : p.zip = zip
    · rw [if_pos hp, List.filter_cons_of_pos (by simp [hp])]
      simp [List.foldl_cons]
    · rw [List.filter_cons_of_neg (by simp [hp]), if_neg hp]

lemma mem_upsert (k : String) (v : StatsAcc) (e : String × StatsAcc) :
    ∀ l, e ∈ upsert k v l → e = (k, v) ∨ e ∈ l := by
  intro l
  induction l with
  | nil => simp [upsert]
  | cons f t ih =>
    by_cases h : f.1 = k
    · intro hm
      rw [upsert] at hm
      rw [if_pos h] at hm
      rcases List.mem_cons.mp hm with h1 | h1
      · exact Or.inl h1
      · exact Or.inr (List.mem_cons_of_mem f h1)
    · intro hm
      rw [upsert] at hm
      rw [if_neg h] at hm
      rcases List.mem_cons.mp hm with h1 | h1
      · exact Or.inr (h1 ▸ List.mem_cons_self f t)
      · rcases ih h1 with h2 | h2
        · exact Or.inl h2
        · exact Or.inr (List.mem_cons_of_mem f h2)

lemma total_pos_foldl (cd : ℤ) :
    ∀ (props : List PropertyData) (acc : List (String × StatsAcc)),
      (∀ e ∈ acc, 0 < e.2.total_properties) →
      ∀ e ∈ props.foldl (stats_step cd) acc, 0 < e.2.total_properties := by
  intro props
  induction props with
  | nil => intro acc h; exact h
  | cons p rest ih =>
    intro acc h
    rw [List.foldl_cons]
    refine ih (stats_step cd acc p) ?_
    intro e he
    unfold stats_step at he
    by_cases hpz : p.zip = ""
    · rw [if_pos hpz] at he
      exact h e he
    · rw [if_neg hpz] at he
      dsimp only at he
      rcases mem_upsert _ _ e _ he with h1 | h1
      · rw [h1]
        exact Nat.succ_pos _
      · exact h e h1

lemma lookup_calc_stats (cd : ℤ) (now : String) (props : List PropertyData) (zip : String) :
    (calculate_neighborhood_stats cd now props).lookup zip =
      ((props.foldl (stats_step cd) []).lookup zip).map (statsAccFinish now) := by
  unfold calculate_neighborhood_stats
  have hpos := total_pos_foldl cd props [] (by simp)
  generalize hl : props.foldl (stats_step cd) [] = l at hpos ⊢
  clear hl
  induction l with
  | nil => rfl
  | cons e t ih =>
    have he := hpos e (List.mem_cons_self e t)
    rw [List.filterMap_cons]
    rw [if_pos he]
    by_cases h2 : zip = e.1
    · subst h2
      simp [List.lookup]
    · simp only [List.lookup, show (zip == e.1) = false from beq_false_of_ne h2]
      exact ih (fun f hf => hpos f (List.mem_cons_of_mem e hf))

/-- The `statsAccAdd` fold in closed form: each accumulator field is the
corresponding sum/count over the group, and in particular the propensity
sum is exactly the sum of the scores that are assigned (`filterMap`):
a record whose assigned score is 0 is skipped by the truthiness test but
contributes 0 to the sum either way. -/
lemma foldl_statsAccAdd (cd : ℤ) :
    ∀ (g : List PropertyData) (s : StatsAcc),
      g.foldl (statsAccAdd cd) s =
        { total_properties := s.total_properties + g.length
          years_owned_sum := s.years_owned_sum + (g.map PropertyData.years_owned).sum
          equity_sum := s.equity_sum + (g.map PropertyData.estimated_equity).sum
          propensity_score_sum := s.propensity_score_sum +
            (g.filterMap PropertyData.propensity_score).sum
          hot_count := s.hot_count + g.countP (fun p => p.priority_tier == some "HOT")
          warm_count := s.warm_count + g.countP (fun p => p.priority_tier == some "WARM")
          recent_sales := s.recent_sales + g.countP (isRecentSale cd) } := by
  intro g
  induction g with
  | nil => intro s; simp
  | cons p rest ih =>
    intro s
    rw [List.foldl_cons, ih (statsAccAdd cd s p)]
    simp only [statsAccAdd, List.length_cons, List.map_cons, List.sum_cons,
      List.filterMap_cons, List.countP_cons, StatsAcc.mk.injEq, isRecentSale,
      beq_iff_eq]
    refine ⟨by omega, by ring, by ring, ?_, ?_, ?_, ?_⟩
    · cases hps : p.propensity_score with
      | none => simp [hps]
      | some v =>
        simp only [hps, List.sum_cons]
        by_cases hv : v = 0
        · subst hv; simp
        · rw [if_neg hv]; omega
    · split <;> ring
    · split <;> ring
    · obtain ⟨_, _, _, _, _, _, _, _, _, pd, _, _, _, _, _, _, _, _, _, _, _, _, _, _⟩ := p
      cases pd with
      | none => simp
      | some d =>
        simp only [decide_eq_true_eq]
        split_ifs <;> ring

/-- The records of one ZIP group. -/
def zipGroup (zip : String) (props : List PropertyData) : List PropertyData :=
  props.filter (fun p => p.zip == zip)

lemma round2_zero : round2 0 = 0 := by
  norm_num [round2, pyRound]

/-- **C4, amended.** Every ZIP group's row is computed from exactly the
records of that ZIP: the propensity sum accumulates exactly the records with
a score already assigned; each average is the corresponding sum divided by
the group's count and then rounded to 2 decimal places (Python `round`), and
`turnover_rate_12mo` is (count of records with
`(today − purchase_date).days ≤ 365`, which includes future-dated purchases)
divided by the total count, times 100, rounded to 2 decimal places. -/
theorem neighborhood_stats_amended (cd : ℤ) (now : String) (props : List PropertyData)
    (zip : String) (s : NeighborhoodStatsOut) (hz : zip ≠ "")
    (hs : (calculate_neighborhood_stats cd now props).lookup zip = some s) :
    zipGroup zip props ≠ [] ∧
    s.total_properties = (zipGroup zip props).length ∧
    s.avg_years_owned = round2 (((zipGroup zip props).map PropertyData.years_owned).sum /
      ((zipGroup zip props).length : ℚ)) ∧
    s.avg_equity = round2 (((zipGroup zip props).map PropertyData.estimated_equity).sum /
      ((zipGroup zip props).length : ℚ)) ∧
    s.avg_propensity_score =
      round2 ((((zipGroup zip props).filterMap PropertyData.propensity_score).sum : ℚ) /
        ((zipGroup zip props).length : ℚ)) ∧
    s.hot_lead_count = (zipGroup zip props).countP (fun p => p.priority_tier == some "HOT") ∧
    s.warm_lead_count = (zipGroup zip props).countP (fun p => p.priority_tier == some "WARM") ∧
    s.turnover_rate_12mo = round2 (((zipGroup zip props).countP (isRecentSale cd) : ℚ) /
      ((zipGroup zip props).length : ℚ) * 100) := by
  rw [lookup_calc_stats cd now props zip, lookup_foldl_stats cd zip hz props []] at hs
  by_cases hg : props.filter (fun p => p.zip == zip) = []
  · rw [if_pos ⟨rfl, hg⟩] at hs
    exact absurd hs (by simp)
  · rw [if_neg (fun h => hg h.2), foldl_statsAccAdd] at hs
    simp only [Option.map_some'] at hs
    obtain rfl := (Option.some.inj hs).symm
    refine ⟨hg, ?_, ?_, ?_, ?_, ?_, ?_, ?_⟩ <;>
      simp only [statsAccFinish, zipGroup, emptyStatsAcc, List.lookup, Option.getD,
        zero_add]
    by_cases hsum :
        (List.filterMap PropertyData.propensity_score
          (props.filter (fun p => p.zip == zip))).sum = 0
    · rw [if_neg (by simp [hsum]), hsum]
      simp [round2_zero]
    · rw [if_pos hsum]

/-- A minimal record in ZIP 43081 (all other fields inert). -/
def cexBase : PropertyData where
  parcel_id := "x"
  address := ""
  city := ""
  zip := "43081"
  county := ""
  neighborhood := ""
  owner_name := ""
  owner_mailing_address := ""
  is_owner_occupied := false
  purchase_date := none
  purchase_price := 0
  years_owned := 0
  assessed_value := 0
  estimated_market_value := 0
  estimated_equity := 0
  equity_gain_pct := 0
  beds := none
  baths := none
  sqft := none
  year_built := none
  property_class := ""
  propensity_score := none
  td_fit_score := none
  priority_tier := none

/-- Like `cexBase`, but owned 1 year with a purchase date one day in the
future of the aggregation date 100. -/
def cexFuture : PropertyData :=
  { cexBase with years_owned := 1, purchase_date := some 101 }

/-- **C4, counterexample.**  For the 3-record group `[cexFuture, cexBase,
cexBase]` in ZIP 43081 at date 100 the code yields `avg_years_owned = 0.33`,
not the exact sum/count `1/3` the claim asserts, and
`turnover_rate_12mo = 33.33`, counting the future-dated purchase, whereas
zero of the three purchase dates fall within the trailing 365 days of
"today", so the claim's value is `(0/3)·100 = 0`. -/
theorem neighborhood_stats_counterexample :
    ((calculate_neighborhood_stats 100 "t" [cexFuture, cexBase, cexBase]).lookup "43081").map
        (fun s => (s.avg_years_owned, s.turnover_rate_12mo)) =
      some (33/100, 3333/100) ∧
    (33 : ℚ)/100 ≠ 1/3 ∧ (3333 : ℚ)/100 ≠ (0 : ℚ)/3 * 100 :=
  have h : (calculate_neighborhood_stats 100 "t" [cexFuture, cexBase, cexBase]).lookup
      "43081" = some ⟨3, 33/100, 0, 0, 0, 0, 3333/100, "t"⟩ := by
    norm_num [calculate_neighborhood_stats, stats_step, statsAccAdd, upsert, emptyStatsAcc,
      statsAccFinish, cexBase, cexFuture, List.lookup, round2, pyRound, List.foldl,
      List.filterMap]
    simp
  ⟨by rw [h]; rfl, by norm_num, by norm_num⟩

/-- Witness for C4 (amended) at the concrete 3-record group. -/
theorem neighborhood_stats_amended_witness :
    ("43081" : String) ≠ "" ∧
    (calculate_neighborhood_stats 100 "t" [cexFuture, cexBase, cexBase]).lookup "43081" =
      some ⟨3, 33/100, 0, 0, 0, 0, 3333/100, "t"⟩ ∧
    (zipGroup "43081" [cexFuture, cexBase, cexBase] ≠ [] ∧
     (3 : ℕ) = (zipGroup "43081" [cexFuture, cexBase, cexBase]).length ∧
     (33 : ℚ)/100 = round2 (((zipGroup "43081" [cexFuture, cexBase, cexBase]).map
        PropertyData.years_owned).sum /
       ((zipGroup "43081" [cexFuture, cexBase, cexBase]).length : ℚ)) ∧
     (0 : ℚ) = round2 (((zipGroup "43081" [cexFuture, cexBase, cexBase]).map
        PropertyData.estimated_equity).sum /
       ((zipGroup "43081" [cexFuture, cexBase, cexBase]).length : ℚ)) ∧
     (0 : ℚ) = round2 ((((zipGroup "43081" [cexFuture, cexBase, cexBase]).filterMap
        PropertyData.propensity_score).sum : ℚ) /
       ((zipGroup "43081" [cexFuture, cexBase, cexBase]).length : ℚ)) ∧
     (0 : ℕ) = (zipGroup "43081" [cexFuture, cexBase, cexBase]).countP
        (fun p => p.priority_tier == some "HOT") ∧
     (0 : ℕ) = (zipGroup "43081" [cexFuture, cexBase, cexBase]).countP
        (fun p => p.priority_tier == some "WARM") ∧
     (3333 : ℚ)/100 = round2 (((zipGroup "43081" [cexFuture, cexBase, cexBase]).countP
        (isRecentSale 100) : ℚ) /
       ((zipGroup "43081" [cexFuture, cexBase, cexBase]).length : ℚ) * 100)) :=
  have hs : (calculate_neighborhood_stats 100 "t" [cexFuture, cexBase, cexBase]).lookup
      "43081" = some ⟨3, 33/100, 0, 0, 0, 0, 3333/100, "t"⟩ := by
    norm_num [calculate_neighborhood_stats, stats_step, statsAccAdd, upsert, emptyStatsAcc,
      statsAccFinish, cexBase, cexFuture, List.lookup, round2, pyRound, List.foldl,
      List.filterMap]
    simp
  ⟨by decide, hs,
   neighborhood_stats_amended 100 "t" [cexFuture, cexBase, cexBase] "43081"
     ⟨3, 33/100, 0, 0, 0, 0, 3333/100, "t"⟩ (by decide) hs⟩

/-! ### Idempotence of `normalize_address` (C10). -/

/-- A successful association-list lookup names a member. -/
lemma lookup_mem {α β : Type} [BEq α] [LawfulBEq α] (k : α) (v : β) :
    ∀ l : List (α × β), l.lookup k = some v → (k, v) ∈ l := by
  intro l
  induction l with
  | nil => intro h; cases h
  | cons e t ih =>
    intro h
    rw [List.lookup_cons] at h
    cases hk : k == e.1 with
    | true =>
      rw [hk] at h
      obtain rfl : e.2 = v := by simpa using h
      have hke : k = e.1 := eq_of_beq hk
      rw [hke]
      exact List.mem_cons_self e t
    | false =>
      rw [hk] at h
      exact List.mem_cons_of_mem e (ih (by simpa using h))

lemma pyUpperChar_idem (c : Char) : pyUpperChar (pyUpperChar c) = pyUpperChar c := by
  unfold pyUpperChar
  cases h : LOWER_UPPER.lookup c with
  | none => simp [h]
  | some u =>
    have hmem := lookup_mem c u LOWER_UPPER h
    have hall : ∀ e ∈ LOWER_UPPER, LOWER_UPPER.lookup e.2 = none := by decide
    have hnone : LOWER_UPPER.lookup u = none := hall (c, u) hmem
    simp [h, hnone]

/-- A character that survives normalization unchanged: ASCII-uppercase
stable, not one of the stripped punctuation marks, not whitespace. -/
def goodChar (c : Char) : Prop :=
  pyUpperChar c = c ∧ c ≠ '.' ∧ c ≠ ',' ∧ c ≠ '#' ∧ c.isWhitespace = false

instance goodChar_dec : DecidablePred goodChar := fun c => by
  unfold goodChar
  infer_instance

/-- A token that survives re-tokenization: nonempty, all characters good. -/
def goodTok (t : List Char) : Prop := t ≠ [] ∧ ∀ c ∈ t, goodChar c

instance goodTok_dec : DecidablePred goodTok := fun t => by
  unfold goodTok
  infer_instance

/-- A token on which the per-word step of `normalize_words` is the
identity. -/
def fixedWord (w : List Char) : Prop :=
  (DIRECTION_MAP.lookup (lowerL w) = some w) ∨
  (DIRECTION_MAP.lookup (lowerL w) = none ∧ STREET_TYPE_MAP.lookup (lowerL w) = some w) ∨
  (DIRECTION_MAP.lookup (lowerL w) = none ∧ STREET_TYPE_MAP.lookup (lowerL w) = none ∧
    lowerL w ∉ SKIP_WORDS)

instance fixedWord_dec : DecidablePred fixedWord := fun w => by
  unfold fixedWord
  infer_instance

lemma map_id_of_mem {f : Char → Char} : ∀ l : List Char, (∀ c ∈ l, f c = c) → l.map f = l := by
  intro l
  induction l with
  | nil => intro _; rfl
  | cons a t ih =>
    intro h
    rw [List.map_cons, h a (List.mem_cons_self a t),
      ih (fun c hc => h c (List.mem_cons_of_mem a hc))]

lemma mem_stripPunct_upperL (l : List Char) (c : Char) (hc : c ∈ stripPunctL (upperL l)) :
    c = ' ' ∨ (pyUpperChar c = c ∧ c ≠ '.' ∧ c ≠ ',' ∧ c ≠ '#') := by
  unfold stripPunctL upperL at hc
  obtain ⟨d, hd, rfl⟩ := List.mem_map.mp hc
  obtain ⟨c0, _, rfl⟩ := List.mem_map.mp hd
  by_cases hp : pyUpperChar c0 = '.' ∨ pyUpperChar c0 = ',' ∨ pyUpperChar c0 = '#'
  · left
    rw [if_pos hp]
  · right
    rw [if_neg hp]
    push_neg at hp
    exact ⟨pyUpperChar_idem c0, hp.1, hp.2.1, hp.2.2⟩

lemma wordsAux_nil (acc : List Char) :
    wordsAux [] acc = if acc = [] then [] else [acc] := rfl

lemma wordsAux_cons (a : Char) (cs acc : List Char) :
    wordsAux (a :: cs) acc =
      if a.isWhitespace = true then
        (if acc = [] then wordsAux cs [] else acc :: wordsAux cs [])
      else wordsAux cs (acc ++ [a]) := rfl

lemma wordsAux_mem : ∀ (l acc t : List Char), t ∈ wordsAux l acc →
    t ≠ [] ∧ ∀ c ∈ t, c ∈ acc ∨ (c ∈ l ∧ c.isWhitespace = false) := by
  intro l
  induction l with
  | nil =>
    intro acc t ht
    rw [wordsAux_nil] at ht
    by_cases ha : acc = []
    · rw [if_pos ha] at ht
      cases ht
    · rw [if_neg ha] at ht
      obtain rfl := List.mem_singleton.mp ht
      exact ⟨ha, fun c hc => Or.inl hc⟩
  | cons a l ih =>
    intro acc t ht
    rw [wordsAux_cons] at ht
    by_cases hw : a.isWhitespace = true
    · rw [if_pos hw] at ht
      by_cases ha : acc = []
      · rw [if_pos ha] at ht
        obtain ⟨h1, h2⟩ := ih [] t ht
        refine ⟨h1, fun c hc => ?_⟩
        rcases h2 c hc with h3 | ⟨h3, h4⟩
        · cases h3
        · exact Or.inr ⟨List.mem_cons_of_mem a h3, h4⟩
      · rw [if_neg ha] at ht
        rcases List.mem_cons.mp ht with rfl | ht'
        · exact ⟨ha, fun c hc => Or.inl hc⟩
        · obtain ⟨h1, h2⟩ := ih [] t ht'
          refine ⟨h1, fun c hc => ?_⟩
          rcases h2 c hc with h3 | ⟨h3, h4⟩
          · cases h3
          · exact Or.inr ⟨List.mem_cons_of_mem a h3, h4⟩
    · rw [if_neg hw] at ht
      obtain ⟨h1, h2⟩ := ih (acc ++ [a]) t ht
      refine ⟨h1, fun c hc => ?_⟩
      rcases h2 c hc with h3 | ⟨h3, h4⟩
      · rcases List.mem_append.mp h3 with h4 | h4
        · exact Or.inl h4
        · obtain rfl := List.mem_singleton.mp h4
          exact Or.inr ⟨List.mem_cons_self c l, Bool.not_eq_true _ ▸ hw⟩
      · exact Or.inr ⟨List.mem_cons_of_mem a h3, h4⟩

lemma wordsAux_append (w : List Char) (hw : ∀ c ∈ w, c.isWhitespace = false) :
    ∀ (l acc : List Char), wordsAux (w ++ l) acc = wordsAux l (acc ++ w) := by
  induction w with
  | nil =>
    intro l acc
    simp
  | cons a w ih =>
    intro l acc
    have ha : a.isWhitespace = false := hw a (List.mem_cons_self a w)
    rw [List.cons_append, wordsAux_cons, if_neg (by simp [ha]),
      ih (fun c hc => hw c (List.mem_cons_of_mem a hc)) l (acc ++ [a]),
      List.append_assoc]
    rfl

lemma wordsL_joinSpace : ∀ ts : List (List Char),
    (∀ t ∈ ts, t ≠ [] ∧ ∀ c ∈ t, c.isWhitespace = false) → wordsL (joinSpace ts) = ts := by
  intro ts
  induction ts with
  | nil => intro _; rfl
  | cons t rest ih =>
    intro h
    obtain ⟨ht1, ht2⟩ := h t (List.mem_cons_self t rest)
    cases rest with
    | nil =>
      show wordsAux (joinSpace [t]) [] = [t]
      rw [show joinSpace [t] = t from rfl]
      have happ := wordsAux_append t ht2 [] []
      rw [List.append_nil] at happ
      rw [happ, List.nil_append, wordsAux_nil, if_neg ht1]
    | cons t' rest' =>
      show wordsAux (t ++ ' ' :: joinSpace (t' :: rest')) [] = t :: t' :: rest'
      rw [wordsAux_append t ht2 _ [], List.nil_append, wordsAux_cons,
        if_pos (by decide), if_neg ht1]
      rw [show wordsAux (joinSpace (t' :: rest')) [] = wordsL (joinSpace (t' :: rest')) from rfl]
      rw [ih (fun u hu => h u (List.mem_cons_of_mem t hu))]

lemma mem_joinSpace : ∀ (ts : List (List Char)) (c : Char), c ∈ joinSpace ts →
    c = ' ' ∨ ∃ u ∈ ts, c ∈ u := by
  intro ts
  induction ts with
  | nil =>
    intro c hc
    cases hc
  | cons t rest ih =>
    cases rest with
    | nil =>
      intro c hc
      exact Or.inr ⟨t, List.mem_cons_self t [], hc⟩
    | cons t' rest' =>
      intro c hc
      rw [show joinSpace (t :: t' :: rest') = t ++ ' ' :: joinSpace (t' :: rest') from rfl] at hc
      rcases List.mem_append.mp hc with h | h
      · exact Or.inr ⟨t, List.mem_cons_self t _, h⟩
      · rcases List.mem_cons.mp h with rfl | h'
        · exact Or.inl rfl
        · rcases ih c h' with h'' | ⟨u, hu, hcu⟩
          · exact Or.inl h''
          · exact Or.inr ⟨u, List.mem_cons_of_mem t hu, hcu⟩

lemma normalize_words_aux_cons_false (w : List Char) (ws : List (List Char)) :
    normalize_words_aux false (w :: ws) =
      match DIRECTION_MAP.lookup (lowerL w) with
      | some d => d :: normalize_words_aux false ws
      | none =>
        match STREET_TYPE_MAP.lookup (lowerL w) with
        | some t => t :: normalize_words_aux false ws
        | none =>
          if lowerL w ∈ SKIP_WORDS then normalize_words_aux true ws
          else w :: normalize_words_aux false ws := rfl

lemma normalize_words_fixed : ∀ ts : List (List Char),
    (∀ t ∈ ts, fixedWord t) → normalize_words ts = ts := by
  intro ts
  induction ts with
  | nil => intro _; rfl
  | cons w ws ih =>
    intro h
    have hw := h w (List.mem_cons_self w ws)
    have hws := ih (fun t ht => h t (List.mem_cons_of_mem w ht))
    unfold normalize_words at hws ⊢
    rcases hw with h1 | ⟨h1, h2⟩ | ⟨h1, h2, h3⟩
    · simp only [normalize_words_aux_cons_false, h1, hws]
    · simp only [normalize_words_aux_cons_false, h1, h2, hws]
    · simp only [normalize_words_aux_cons_false, h1, h2, if_neg h3, hws]

lemma normalize_words_aux_mem : ∀ (ts : List (List Char)) (b : Bool) (u : List Char),
    u ∈ normalize_words_aux b ts →
      (∃ e ∈ DIRECTION_MAP, u = e.2) ∨ (∃ e ∈ STREET_TYPE_MAP, u = e.2) ∨
      (u ∈ ts ∧ DIRECTION_MAP.lookup (lowerL u) = none ∧
        STREET_TYPE_MAP.lookup (lowerL u) = none ∧ lowerL u ∉ SKIP_WORDS) := by
  intro ts
  induction ts with
  | nil =>
    intro b u hu
    cases b <;> cases hu
  | cons w ws ih =>
    intro b u hu
    have lift : (∃ e ∈ DIRECTION_MAP, u = e.2) ∨ (∃ e ∈ STREET_TYPE_MAP, u = e.2) ∨
        (u ∈ ws ∧ DIRECTION_MAP.lookup (lowerL u) = none ∧
          STREET_TYPE_MAP.lookup (lowerL u) = none ∧ lowerL u ∉ SKIP_WORDS) →
        (∃ e ∈ DIRECTION_MAP, u = e.2) ∨ (∃ e ∈ STREET_TYPE_MAP, u = e.2) ∨
        (u ∈ w :: ws ∧ DIRECTION_MAP.lookup (lowerL u) = none ∧
          STREET_TYPE_MAP.lookup (lowerL u) = none ∧ lowerL u ∉ SKIP_WORDS) := by
      rintro (h | h | ⟨h1, h2⟩)
      · exact Or.inl h
      · exact Or.inr (Or.inl h)
      · exact Or.inr (Or.inr ⟨List.mem_cons_of_mem w h1, h2⟩)
    cases b with
    | true =>
      exact lift (ih false u hu)
    | false =>
      rcases hdir : DIRECTION_MAP.lookup (lowerL w) with _ | d
      · rcases hstreet : STREET_TYPE_MAP.lookup (lowerL w) with _ | t
        · by_cases hskip : lowerL w ∈ SKIP_WORDS
          · simp only [normalize_words_aux_cons_false, hdir, hstreet, if_pos hskip] at hu
            exact lift (ih true u hu)
          · simp only [normalize_words_aux_cons_false, hdir, hstreet, if_neg hskip] at hu
            rcases List.mem_cons.mp hu with rfl | hu'
            · exact Or.inr (Or.inr ⟨List.mem_cons_self u ws, hdir, hstreet, hskip⟩)
            · exact lift (ih false u hu')
        · simp only [normalize_words_aux_cons_false, hdir, hstreet] at hu
          rcases List.mem_cons.mp hu with rfl | hu'
          · exact Or.inr (Or.inl ⟨(lowerL w, u), lookup_mem _ _ _ hstreet, rfl⟩)
          · exact lift (ih false u hu')
      · simp only [normalize_words_aux_cons_false, hdir] at hu
        rcases List.mem_cons.mp hu with rfl | hu'
        · exact Or.inl ⟨(lowerL w, u), lookup_mem _ _ _ hdir, rfl⟩
        · exact lift (ih false u hu')

lemma direction_values_good : ∀ e ∈ DIRECTION_MAP, fixedWord e.2 ∧ goodTok e.2 := by decide

lemma street_values_good : ∀ e ∈ STREET_TYPE_MAP, fixedWord e.2 ∧ goodTok e.2 := by decide

lemma words_tokens_good (l : List Char) :
    ∀ t ∈ wordsL (stripPunctL (upperL l)), goodTok t := by
  intro t ht
  obtain ⟨h1, h2⟩ := wordsAux_mem _ [] t ht
  refine ⟨h1, fun c hc => ?_⟩
  rcases h2 c hc with h3 | ⟨h3, h4⟩
  · cases h3
  · rcases mem_stripPunct_upperL l c h3 with rfl | ⟨h5, h6, h7, h8⟩
    · exact absurd h4 (by decide)
    · exact ⟨h5, h6, h7, h8, h4⟩

lemma normalize_core_tokens (l : List Char) :
    ∀ u ∈ normalize_words (wordsL (stripPunctL (upperL l))), goodTok u ∧ fixedWord u := by
  intro u hu
  rcases normalize_words_aux_mem (wordsL (stripPunctL (upperL l))) false u hu with
    ⟨e, he, rfl⟩ | ⟨e, he, rfl⟩ | ⟨h1, h2, h3, h4⟩
  · have h := direction_values_good e he
    exact ⟨h.2, h.1⟩
  · have h := street_values_good e he
    exact ⟨h.2, h.1⟩
  · exact ⟨words_tokens_good l u h1, Or.inr (Or.inr ⟨h2, h3, h4⟩)⟩

lemma normalize_core_idem (l : List Char) :
    normalize_core (normalize_core l) = normalize_core l := by
  have htoks := normalize_core_tokens l
  have hchar : ∀ c ∈ joinSpace (normalize_words (wordsL (stripPunctL (upperL l)))),
      pyUpperChar c = c ∧ c ≠ '.' ∧ c ≠ ',' ∧ c ≠ '#' := by
    intro c hc
    rcases mem_joinSpace _ c hc with rfl | ⟨u, hu, hcu⟩
    · exact ⟨by decide, by decide, by decide, by decide⟩
    · obtain ⟨g1, g2, g3, g4, _⟩ := (htoks u hu).1.2 c hcu
      exact ⟨g1, g2, g3, g4⟩
  have hupper : upperL (joinSpace (normalize_words (wordsL (stripPunctL (upperL l))))) =
      joinSpace (normalize_words (wordsL (stripPunctL (upperL l)))) :=
    map_id_of_mem _ (fun c hc => (hchar c hc).1)
  have hpunct : stripPunctL (joinSpace (normalize_words (wordsL (stripPunctL (upperL l))))) =
      joinSpace (normalize_words (wordsL (stripPunctL (upperL l)))) := by
    refine map_id_of_mem _ (fun c hc => ?_)
    obtain ⟨_, g2, g3, g4⟩ := hchar c hc
    rw [if_neg]
    rintro (h | h | h) <;> [exact g2 h; exact g3 h; exact g4 h]
  have hwords : wordsL (joinSpace (normalize_words (wordsL (stripPunctL (upperL l))))) =
      normalize_words (wordsL (stripPunctL (upperL l))) := by
    refine wordsL_joinSpace _ (fun t ht => ?_)
    exact ⟨(htoks t ht).1.1, fun c hc => ((htoks t ht).1.2 c hc).2.2.2.2⟩
  have hfixed : normalize_words (normalize_words (wordsL (stripPunctL (upperL l)))) =
      normalize_words (wordsL (stripPunctL (upperL l))) :=
    normalize_words_fixed _ (fun t ht => (htoks t ht).2)
  show joinSpace (normalize_words (wordsL (stripPunctL (upperL
    (joinSpace (normalize_words (wordsL (stripPunctL (upperL l))))))))) = _
  rw [hupper, hpunct, hwords, hfixed]
  rfl

/-- **C10.** `normalize_address` is idempotent: normalizing an already
normalized address changes nothing. -/
theorem normalize_address_idempotent (s : String) :
    normalize_address (normalize_address s) = normalize_address s := by
  by_cases hs : s = ""
  · rw [hs]
    rfl
  · unfold normalize_address
    rw [if_neg hs]
    by_cases hout : String.mk (normalize_core s.data) = ""
    · rw [if_pos hout, hout]
    · rw [if_neg hout]
      exact congrArg String.mk (normalize_core_idem s.data)

end TDRealty
